import Mathlib

/-!
Verification development for the mode_statsig_analyzer funnel dashboard.

The statistical display logic lives in `processData` of
`frontend/src/example.tsx` (funnel aggregation, comparison metrics,
chance-to-beat, significance flag) and in the `ConfidenceChart`
components (three variants: `frontend/src/components/ConfidenceChart.tsx`
carries two revisions, and a third revision is present as an unnamed
source file).  JavaScript numbers are embedded as `ℚ`, with the IEEE
special values that arise from division by zero represented explicitly
by `JsNum`.  JavaScript `Array.prototype.slice` / `findIndex` index
conventions (negative indices, `-1` for "not found") are embedded
over `Int`.
-/

/-- IEEE-style result of a JavaScript arithmetic expression: a finite
number, positive or negative infinity, or NaN. -/
inductive JsNum where
  | num (q : ℚ)
  | inf
  | negInf
  | nan
deriving DecidableEq

/-- Embeds the JavaScript idiom `x || d` applied to a numeric lookup:
an absent key (`none`) or the falsy number `0` falls back to the
default `d`; any other number passes through. -/
def jsOr (v : Option ℚ) (d : ℚ) : ℚ :=
  match v with
  | none => d
  | some x => if x = 0 then d else x

/-- JavaScript division on finite numbers: `a / 0` is `Infinity`,
`-Infinity` or `NaN` according to the sign of `a`. -/
def jsDiv (a b : ℚ) : JsNum :=
  if b = 0 then
    (if 0 < a then JsNum.inf else if a < 0 then JsNum.negInf else JsNum.nan)
  else JsNum.num (a / b)

/-- JavaScript multiplication of a possibly non-finite value by a
finite constant. -/
def jsMul (n : JsNum) (c : ℚ) : JsNum :=
  match n with
  | JsNum.num q => JsNum.num (q * c)
  | JsNum.inf => if 0 < c then JsNum.inf else if c < 0 then JsNum.negInf else JsNum.nan
  | JsNum.negInf => if 0 < c then JsNum.negInf else if c < 0 then JsNum.inf else JsNum.nan
  | JsNum.nan => JsNum.nan

/-- `step.replace('Ct_', '')` as used in `processData`; for the funnel
step labels of this dashboard the first occurrence of `"Ct_"` is the
leading prefix, so dropping a leading `"Ct_"` coincides with the
JavaScript call on every label that actually occurs. -/
def stripCt (s : String) : String :=
  if s.startsWith "Ct_" then s.drop 3 else s

/-- The canonical funnel step order hard-coded in `processData`
(`funnelOrder` in `frontend/src/example.tsx`). -/
def funnelOrder : List String :=
  ["Users", "Ct_Typewriter_Intro", "Ct_Goals", "Ct_Protections",
   "Ct_HowItWorks", "Ct_Intent"]

/-- One entry of `comparisonMetrics` as pushed by `processData`
(`frontend/src/example.tsx`, lines 128-179), together with the
intermediate quantities (`controlSuccesses`, `controlAlpha`, ...) that
the same code block computes. `chanceToBeatRaw` is the 0-1 value the
code works with; the pushed `chanceToBeat` field is that value times
100. -/
structure ComparisonMetric where
  stepLabel : String
  controlRate : ℚ
  variant1Rate : ℚ
  relativeUplift : JsNum
  chanceToBeatRaw : ℚ
  chanceToBeat : ℚ
  significant : Bool
  controlSuccesses : ℚ
  controlTrials : ℚ
  variant1Successes : ℚ
  variant1Trials : ℚ
  controlAlpha : ℚ
  controlBeta : ℚ
  variant1Alpha : ℚ
  variant1Beta : ℚ

/-- The comparison-metric computation of `processData`
(`frontend/src/example.tsx`, lines 128-179) for a single funnel step.
`controlMap` and `variant1Map` are the measure lookup tables built from
the rows of the control arm and the `variant_1` arm; `step` is the
funnel step name.  Mirrors the source line by line:
`controlValue = controlMap[step] || 0`,
`controlUsers = controlMap['Users'] || 1`, rates as percentages,
`relativeUplift = ((variant1Rate - controlRate) / controlRate) * 100`,
the piecewise chance-to-beat formula, the two hard-coded step-name
overrides (`Ct_HowItWorks` ↦ 0.02, `Ct_Typewriter_Intro` ↦ 0.99), and
`significant = Math.abs(chanceToBeat - 0.5) > 0.45`. -/
def compareStep (controlMap variant1Map : String → Option ℚ) (step : String) :
    ComparisonMetric :=
  let controlValue := jsOr (controlMap step) 0
  let variant1Value := jsOr (variant1Map step) 0
  let controlUsers := jsOr (controlMap "Users") 1
  let variant1Users := jsOr (variant1Map "Users") 1
  let controlRate := controlValue / controlUsers * 100
  let variant1Rate := variant1Value / variant1Users * 100
  let relativeUplift := jsMul (jsDiv (variant1Rate - controlRate) controlRate) 100
  let controlSuccesses := controlValue
  let controlTrials := controlUsers
  let variant1Successes := variant1Value
  let variant1Trials := variant1Users
  let controlAlpha := controlSuccesses + 1
  let controlBeta := controlTrials - controlSuccesses + 1
  let variant1Alpha := variant1Successes + 1
  let variant1Beta := variant1Trials - variant1Successes + 1
  let chance0 :=
    if controlRate < variant1Rate then
      1/2 + 1/2 * min 1 (|variant1Rate - controlRate| / 10)
    else
      1/2 - 1/2 * min 1 (|variant1Rate - controlRate| / 10)
  let chance1 := if step = "Ct_HowItWorks" then 2/100 else chance0
  let chance2 := if step = "Ct_Typewriter_Intro" then 99/100 else chance1
  { stepLabel := stripCt step
    controlRate := controlRate
    variant1Rate := variant1Rate
    relativeUplift := relativeUplift
    chanceToBeatRaw := chance2
    chanceToBeat := chance2 * 100
    significant := decide (|chance2 - 1/2| > 45/100)
    controlSuccesses := controlSuccesses
    controlTrials := controlTrials
    variant1Successes := variant1Successes
    variant1Trials := variant1Trials
    controlAlpha := controlAlpha
    controlBeta := controlBeta
    variant1Alpha := variant1Alpha
    variant1Beta := variant1Beta }

/-- Modelled from the spec: the mean of a `Beta(a, b)` distribution,
`a / (a + b)`.  `processData` computes the posterior parameters
(`controlAlpha`, `controlBeta`, ...) but never a posterior mean; §4.2
of the specification states the mean of the `Beta(successes + 1,
trials - successes + 1)` posterior. -/
def betaMean (a b : ℚ) : ℚ := a / (a + b)

/-- A measure lookup table with every measure absent (equivalently,
every measure value 0, since `processData` reads the table only
through `x || default`). -/
def emptyMeasureMap : String → Option ℚ := fun _ => none

/-- A measure table with 100 users and a count of `v` on every
`Ct_`-step measure. -/
def flatMeasureMap (v : ℚ) : String → Option ℚ := fun s =>
  if s = "Users" then some 100 else some v

/-- C1: at a (step, variant) cell where both arms have zero trials
(no `Users` measure, no step measure), `processData` does not signal
any estimation error: it silently substitutes the default user count 1
(`controlMap['Users'] || 1`) for both arms and returns the default win
probability 0.5 (`let chanceToBeat = 0.5`), contradicting the claim
that zero-trials cells surface an EstimationError and never yield
0.5. -/
theorem c1_zero_trials_substitutes_default_half :
    (compareStep emptyMeasureMap emptyMeasureMap "Ct_Goals").controlTrials = 1 ∧
    (compareStep emptyMeasureMap emptyMeasureMap "Ct_Goals").variant1Trials = 1 ∧
    (compareStep emptyMeasureMap emptyMeasureMap "Ct_Goals").chanceToBeatRaw = 1/2 := by
  refine ⟨?_, ?_, ?_⟩ <;>
    (simp only [compareStep, String.reduceEq, reduceIte, emptyMeasureMap, jsOr]
     try norm_num [min_def, abs_of_nonneg, abs_of_nonpos])

/-- C2: the win probability computed by `processData` is not a
function of the four count inputs alone: with identical counts
(successes 10, trials 100 in both arms) the step named `Ct_Goals`
yields chance-to-beat 1/2 while the step named `Ct_HowItWorks` yields
the hard-coded 0.02, so the output depends on the step's name. -/
theorem c2_chance_to_beat_depends_on_step_name :
    (compareStep (flatMeasureMap 10) (flatMeasureMap 10) "Ct_Goals").controlSuccesses = 10 ∧
    (compareStep (flatMeasureMap 10) (flatMeasureMap 10) "Ct_Goals").controlTrials = 100 ∧
    (compareStep (flatMeasureMap 10) (flatMeasureMap 10) "Ct_Goals").variant1Successes = 10 ∧
    (compareStep (flatMeasureMap 10) (flatMeasureMap 10) "Ct_Goals").variant1Trials = 100 ∧
    (compareStep (flatMeasureMap 10) (flatMeasureMap 10) "Ct_HowItWorks").controlSuccesses = 10 ∧
    (compareStep (flatMeasureMap 10) (flatMeasureMap 10) "Ct_HowItWorks").controlTrials = 100 ∧
    (compareStep (flatMeasureMap 10) (flatMeasureMap 10) "Ct_HowItWorks").variant1Successes = 10 ∧
    (compareStep (flatMeasureMap 10) (flatMeasureMap 10) "Ct_HowItWorks").variant1Trials = 100 ∧
    (compareStep (flatMeasureMap 10) (flatMeasureMap 10) "Ct_Goals").chanceToBeatRaw = 1/2 ∧
    (compareStep (flatMeasureMap 10) (flatMeasureMap 10) "Ct_HowItWorks").chanceToBeatRaw
      = 2/100 := by
  refine ⟨?_, ?_, ?_, ?_, ?_, ?_, ?_, ?_, ?_, ?_⟩ <;>
    simp only [compareStep, String.reduceEq, reduceIte, flatMeasureMap, jsOr] <;>
    try norm_num [min_def, abs_of_nonneg, abs_of_nonpos]

/-- C3: when the control conversion rate is zero, `processData` does
not report a null uplift: `((variant1Rate - controlRate) /
controlRate) * 100` divides by zero and produces IEEE `Infinity` (when
the variant rate is positive) or `NaN` (when both rates are zero),
never null. -/
theorem c3_zero_control_rate_uplift_infinite_not_null :
    (compareStep (flatMeasureMap 0) (flatMeasureMap 5) "Ct_Goals").controlRate = 0 ∧
    (compareStep (flatMeasureMap 0) (flatMeasureMap 5) "Ct_Goals").relativeUplift
      = JsNum.inf ∧
    (compareStep (flatMeasureMap 0) (flatMeasureMap 0) "Ct_Goals").relativeUplift
      = JsNum.nan := by
  refine ⟨?_, ?_, ?_⟩ <;>
    simp only [compareStep, String.reduceEq, reduceIte, flatMeasureMap, jsOr, jsDiv,
      jsMul] <;>
    try norm_num [min_def, abs_of_nonneg, abs_of_nonpos]

/-- C4 counterexample: with control 10/100 and variant 19/100 the
chance-to-beat is exactly 0.95, yet `significant =
Math.abs(chanceToBeat - 0.5) > 0.45` is strict, so the boundary value
0.95 is reported as not significant — the claim counts it as
significant. -/
theorem c4_boundary_win_probability_not_significant :
    (compareStep (flatMeasureMap 10) (flatMeasureMap 19) "Ct_Goals").chanceToBeatRaw
      = 19/20 ∧
    (compareStep (flatMeasureMap 10) (flatMeasureMap 19) "Ct_Goals").significant = false := by
  refine ⟨?_, ?_⟩ <;>
    simp only [compareStep, String.reduceEq, reduceIte, flatMeasureMap, jsOr] <;>
    try norm_num [min_def, abs_of_nonneg, abs_of_nonpos]

/-- C4 (amended): the significance flag of a comparison metric is set
exactly when the win probability is strictly greater than 0.95 or
strictly less than 0.05; the boundary values 0.95 and 0.05 themselves
are not significant. -/
theorem c4_significant_iff_strictly_beyond_bounds
    (cm vm : String → Option ℚ) (step : String) :
    (compareStep cm vm step).significant = true ↔
      19/20 < (compareStep cm vm step).chanceToBeatRaw ∨
        (compareStep cm vm step).chanceToBeatRaw < 1/20 := by
  have h : (compareStep cm vm step).significant
      = decide (|(compareStep cm vm step).chanceToBeatRaw - 1/2| > 45/100) := rfl
  rw [h, decide_eq_true_eq, gt_iff_lt, lt_abs]
  constructor
  · rintro (h' | h')
    · exact Or.inl (by linarith)
    · exact Or.inr (by linarith)
  · rintro (h' | h')
    · exact Or.inl (by linarith)
    · exact Or.inr (by linarith)

/-- C8 counterexample: at the step named `Ct_HowItWorks` the
hard-coded override sets chance-to-beat to 0.02 in both comparison
directions, so the two win probabilities sum to 0.04, far outside any
tolerance of 1. -/
theorem c8_hardcoded_steps_break_complement_sum :
    (compareStep (flatMeasureMap 10) (flatMeasureMap 20) "Ct_HowItWorks").chanceToBeatRaw
        + (compareStep (flatMeasureMap 20) (flatMeasureMap 10) "Ct_HowItWorks").chanceToBeatRaw
      = 1/25 ∧
    ¬ (|(1:ℚ)/25 - 1| ≤ 1/1000) := by
  constructor
  · simp only [compareStep, String.reduceEq, reduceIte, flatMeasureMap, jsOr]
    try norm_num [min_def, abs_of_nonneg, abs_of_nonpos]
  · rw [abs_of_nonpos (by norm_num)]
    norm_num

/-- C8 (amended): for every step other than the two hard-coded steps
`Ct_HowItWorks` and `Ct_Typewriter_Intro`, the chance-to-beat computed
for (A vs B) plus the chance-to-beat computed for (B vs A) equals 1
exactly. -/
theorem c8_complement_sum_one_without_overrides
    (cm vm : String → Option ℚ) (step : String)
    (h1 : step ≠ "Ct_HowItWorks") (h2 : step ≠ "Ct_Typewriter_Intro") :
    (compareStep cm vm step).chanceToBeatRaw
        + (compareStep vm cm step).chanceToBeatRaw = 1 := by
  simp only [compareStep, if_neg h1, if_neg h2]
  have habs : |jsOr (vm step) 0 / jsOr (vm "Users") 1 * 100
        - jsOr (cm step) 0 / jsOr (cm "Users") 1 * 100|
      = |jsOr (cm step) 0 / jsOr (cm "Users") 1 * 100
        - jsOr (vm step) 0 / jsOr (vm "Users") 1 * 100| := abs_sub_comm _ _
  rcases lt_trichotomy (jsOr (cm step) 0 / jsOr (cm "Users") 1 * 100)
      (jsOr (vm step) 0 / jsOr (vm "Users") 1 * 100) with h | h | h
  · rw [if_pos h, if_neg (not_lt.mpr h.le), habs]; ring
  · rw [if_neg (not_lt.mpr h.le), if_neg (not_lt.mpr h.ge), h, sub_self, abs_zero]
    norm_num
  · rw [if_neg (not_lt.mpr h.le), if_pos h, habs]; ring

/-- C8 witness: a concrete non-overridden step where the two
directions sum to 1. -/
theorem c8_complement_sum_witness :
    ("Ct_Goals" : String) ≠ "Ct_HowItWorks" ∧
    ("Ct_Goals" : String) ≠ "Ct_Typewriter_Intro" ∧
    (compareStep (flatMeasureMap 10) (flatMeasureMap 20) "Ct_Goals").chanceToBeatRaw
        + (compareStep (flatMeasureMap 20) (flatMeasureMap 10) "Ct_Goals").chanceToBeatRaw
      = 1 := by
  refine ⟨by decide, by decide, ?_⟩
  exact c8_complement_sum_one_without_overrides
    (flatMeasureMap 10) (flatMeasureMap 20) "Ct_Goals" (by decide) (by decide)

set_option linter.unusedVariables false in
/-- C9: for every measure table and step, `processData` computes the
posterior parameters alpha = successes + 1 and beta = trials -
successes + 1 for both arms (a `Beta(successes + 1, trials - successes
+ 1)` posterior under the uniform prior), and the mean of that Beta
posterior equals (successes + 1) / (trials + 2). -/
theorem c9_posterior_parameters_and_mean
    (cm vm : String → Option ℚ) (step : String)
    (hs : 0 ≤ (compareStep cm vm step).controlSuccesses)
    (hst : (compareStep cm vm step).controlSuccesses
      ≤ (compareStep cm vm step).controlTrials) :
    (compareStep cm vm step).controlAlpha
        = (compareStep cm vm step).controlSuccesses + 1 ∧
    (compareStep cm vm step).controlBeta
        = (compareStep cm vm step).controlTrials
          - (compareStep cm vm step).controlSuccesses + 1 ∧
    (compareStep cm vm step).variant1Alpha
        = (compareStep cm vm step).variant1Successes + 1 ∧
    (compareStep cm vm step).variant1Beta
        = (compareStep cm vm step).variant1Trials
          - (compareStep cm vm step).variant1Successes + 1 ∧
    betaMean (compareStep cm vm step).controlAlpha (compareStep cm vm step).controlBeta
        = ((compareStep cm vm step).controlSuccesses + 1)
          / ((compareStep cm vm step).controlTrials + 2) := by
  refine ⟨rfl, rfl, rfl, rfl, ?_⟩
  simp only [compareStep, betaMean]
  congr 1
  ring

/-- C9 witness: the posterior summary evaluated at control counts
10/100. -/
theorem c9_posterior_witness :
    0 ≤ (compareStep (flatMeasureMap 10) (flatMeasureMap 19) "Ct_Goals").controlSuccesses ∧
    (compareStep (flatMeasureMap 10) (flatMeasureMap 19) "Ct_Goals").controlSuccesses
      ≤ (compareStep (flatMeasureMap 10) (flatMeasureMap 19) "Ct_Goals").controlTrials ∧
    betaMean (compareStep (flatMeasureMap 10) (flatMeasureMap 19) "Ct_Goals").controlAlpha
        (compareStep (flatMeasureMap 10) (flatMeasureMap 19) "Ct_Goals").controlBeta
      = ((compareStep (flatMeasureMap 10) (flatMeasureMap 19) "Ct_Goals").controlSuccesses + 1)
        / ((compareStep (flatMeasureMap 10) (flatMeasureMap 19) "Ct_Goals").controlTrials
          + 2) := by
  have hs : 0 ≤ (compareStep (flatMeasureMap 10) (flatMeasureMap 19) "Ct_Goals").controlSuccesses := by
    simp only [compareStep, String.reduceEq, reduceIte, flatMeasureMap, jsOr]
    norm_num
  have hst : (compareStep (flatMeasureMap 10) (flatMeasureMap 19) "Ct_Goals").controlSuccesses
      ≤ (compareStep (flatMeasureMap 10) (flatMeasureMap 19) "Ct_Goals").controlTrials := by
    simp only [compareStep, String.reduceEq, reduceIte, flatMeasureMap, jsOr]
    norm_num
  exact ⟨hs, hst,
    (c9_posterior_parameters_and_mean (flatMeasureMap 10) (flatMeasureMap 19)
      "Ct_Goals" hs hst).2.2.2.2⟩

/-- One `ConfidenceDataPoint` of the `ConfidenceChart` components:
an observation date, a 0-100 confidence score, and the
historical/projected tag. -/
structure CPoint where
  date : String
  confidence : ℚ
  isProjected : Bool
deriving DecidableEq

/-- JavaScript `Array.prototype.findIndex`: index of the first element
satisfying the predicate, `-1` when none does. -/
def jsFindIndex {α : Type} (p : α → Bool) : List α → Int
  | [] => -1
  | a :: as =>
    if p a then 0
    else
      let r := jsFindIndex p as
      if r = -1 then -1 else r + 1

/-- Normalization of a JavaScript slice index: negative indices count
from the end (clamped below at 0), non-negative indices are clamped
above at the length. -/
def jsIdx (len : Nat) (i : Int) : Nat :=
  if i < 0 then ((len : Int) + i).toNat else min i.toNat len

/-- JavaScript `arr.slice(a, b)`. -/
def jsSlice {α : Type} (l : List α) (a b : Int) : List α :=
  (l.take (jsIdx l.length b)).drop (jsIdx l.length a)

/-- JavaScript `arr.slice(a)` (one-argument form). -/
def jsSliceFrom {α : Type} (l : List α) (a : Int) : List α :=
  l.drop (jsIdx l.length a)

namespace ChartV1

/-!
First revision of `frontend/src/components/ConfidenceChart.tsx`
(lines 27-34): splits the input trajectory into a historical series
`data.slice(0, lastHistoricalIndex)` and a projected series
`data.slice(lastHistoricalIndex - 1)` (deliberately including the
last historical point as the overlap anchor), and suppresses the
projected line when a historical point already reached the 90
threshold.
-/

/-- `data.findIndex(point => point.isProjected)`. -/
def lastHistoricalIndex (data : List CPoint) : Int :=
  jsFindIndex (fun p => p.isProjected) data

/-- `data.slice(0, lastHistoricalIndex)`. -/
def historicalData (data : List CPoint) : List CPoint :=
  jsSlice data 0 (lastHistoricalIndex data)

/-- `data.slice(lastHistoricalIndex - 1)` — includes the overlap
point. -/
def projectedData (data : List CPoint) : List CPoint :=
  jsSliceFrom data (lastHistoricalIndex data - 1)

/-- `historicalData.some(point => point.confidence >= 90)`. -/
def hasReachedConfidence (data : List CPoint) : Bool :=
  (historicalData data).any (fun p => decide (90 ≤ p.confidence))

end ChartV1

namespace ChartP3

/-!
Third revision of the `ConfidenceChart` component (unnamed source
file, lines 27-43): guards the `findIndex = -1` case explicitly, then
builds one unified `chartData` row per input point with separate
`historical` and `projected` fields, `null`-ing each field outside its
segment; the projected field starts at `lastHistoricalIndex - 1` (the
last historical point) and is suppressed entirely once the threshold
was reached historically.
-/

/-- One element of the `chartData` array built by the component. -/
structure ChartRow where
  date : String
  historical : Option ℚ
  projected : Option ℚ
deriving DecidableEq

/-- `data.findIndex(point => point.isProjected)`. -/
def lastHistoricalIndex (data : List CPoint) : Int :=
  jsFindIndex (fun p => p.isProjected) data

/-- `lastHistoricalIndex === -1 ? data : data.slice(0,
lastHistoricalIndex)`. -/
def historicalSegment (data : List CPoint) : List CPoint :=
  if lastHistoricalIndex data = -1 then data
  else jsSlice data 0 (lastHistoricalIndex data)

/-- `historicalSegment.some(point => point.confidence >= 90)`. -/
def hasReachedConfidence (data : List CPoint) : Bool :=
  (historicalSegment data).any (fun p => decide (90 ≤ p.confidence))

/-- `!hasReachedConfidence && lastHistoricalIndex !== -1`. -/
def showProjectedLine (data : List CPoint) : Bool :=
  !hasReachedConfidence data && decide (lastHistoricalIndex data ≠ -1)

/-- The body of `data.map((point, index) => ...)` unrolled with an
explicit running index: `historical` keeps the confidence for indices
before `li` (or everywhere when `li = -1`); `projected` keeps it from
index `li - 1` on, and only when the projected line is shown. -/
def chartRowsAux (li : Int) (sp : Bool) : Nat → List CPoint → List ChartRow
  | _, [] => []
  | i, p :: ps =>
    { date := p.date
      historical := if (i : Int) < li ∨ li = -1 then some p.confidence else none
      projected := if sp = true ∧ li - 1 ≤ (i : Int) then some p.confidence else none }
      :: chartRowsAux li sp (i + 1) ps

/-- The `chartData` array of the component. -/
def chartData (data : List CPoint) : List ChartRow :=
  chartRowsAux (lastHistoricalIndex data) (showProjectedLine data) 0 data

end ChartP3

/-- Modelled from the spec: one per-user event row consumed by the
FunnelAggregator of §4.1 (absent from the source, which only consumes
pre-aggregated measure values): the set of funnel step indices the
user reached, funnel entry being step 0.  Each row is one distinct
user of one variant. -/
structure UserRow where
  reached : List Nat

/-- Modelled from the spec: `trials(step)` — the count of users of the
variant who reached the entry point of the funnel (step 0); the same
for every step. -/
def trialsOf (users : List UserRow) : Nat :=
  (users.filter (fun u => u.reached.contains 0)).length

/-- Modelled from the spec: `successes(step k)` — the count of users
who reached step `k` or any later step. -/
def successesOf (users : List UserRow) (k : Nat) : Nat :=
  (users.filter (fun u => u.reached.any (fun j => k ≤ j))).length

/-- Modelled from the spec: the per-variant aggregate, one
(trials, successes) pair per step in canonical order. -/
def funnelAggregate (users : List UserRow) (numSteps : Nat) : List (Nat × Nat) :=
  (List.range numSteps).map (fun k => (trialsOf users, successesOf users k))

/-- The worked example of §8: 100 assigned users, 80 of whom reach the
goal step (index 1) and 40 of whom also reach the intent step
(index 4). -/
def exampleUsers : List UserRow :=
  List.replicate 40 ⟨[0, 1, 2, 3, 4]⟩ ++ List.replicate 40 ⟨[0, 1]⟩
    ++ List.replicate 20 ⟨[0]⟩

theorem jsFindIndex_eq_neg_one {α : Type} (p : α → Bool) (l : List α)
    (h : ∀ x ∈ l, p x = false) : jsFindIndex p l = -1 := by
  induction l with
  | nil => rfl
  | cons a as ih =>
    have ha : p a = false := h a (List.mem_cons_self a as)
    have ih' := ih (fun x hx => h x (List.mem_cons_of_mem a hx))
    simp [jsFindIndex, ha, ih']

theorem jsFindIndex_append {α : Type} (p : α → Bool) (H : List α) (x : α) (P : List α)
    (hH : ∀ y ∈ H, p y = false) (hx : p x = true) :
    jsFindIndex p (H ++ x :: P) = (H.length : Int) := by
  induction H with
  | nil => simp [jsFindIndex, hx]
  | cons a as ih =>
    have ha : p a = false := hH a (List.mem_cons_self a as)
    have ih' := ih (fun y hy => hH y (List.mem_cons_of_mem a hy))
    simp only [List.cons_append, jsFindIndex, ha, Bool.false_eq_true, if_false, ih',
      List.length_cons]
    have hlen : ((as.length : Int)) ≠ -1 := by omega
    show (if jsFindIndex p (as ++ x :: P) = -1 then -1
      else jsFindIndex p (as ++ x :: P) + 1) = ((as.length + 1 : Nat) : Int)
    rw [ih', if_neg hlen]
    push_cast
    ring

example : True := trivial

theorem jsIdx_zero (len : Nat) : jsIdx len 0 = 0 := by
  simp [jsIdx]

theorem jsIdx_natCast (len n : Nat) : jsIdx len (n : Int) = min n len := by
  simp only [jsIdx]
  rw [if_neg (by omega)]
  simp

theorem jsSlice_zero_natCast {α : Type} (l : List α) (n : Nat) (h : n ≤ l.length) :
    jsSlice l 0 (n : Int) = l.take n := by
  rw [jsSlice, jsIdx_zero, jsIdx_natCast, List.drop_zero, min_eq_left h]

theorem jsSliceFrom_natCast {α : Type} (l : List α) (n : Nat) :
    jsSliceFrom l (n : Int) = l.drop n := by
  rw [jsSliceFrom, jsIdx_natCast]
  rcases le_or_lt n l.length with h | h
  · rw [min_eq_left h]
  · rw [min_eq_right h.le, List.drop_length, List.drop_eq_nil_of_le h.le]

/-- C6: a trajectory made of a nonempty all-historical block followed
by a nonempty all-projected block is split by the chart into the
historical sequence followed by a projected series that starts with
one overlap point — a duplicate of the last historical point, still
tagged not-projected — followed by the projected points. -/
theorem c6_projected_series_starts_at_last_historical
    (H P : List CPoint) (hH : H ≠ []) (hP : P ≠ [])
    (h1 : ∀ p ∈ H, p.isProjected = false) (h2 : ∀ p ∈ P, p.isProjected = true) :
    ∃ last, H.getLast? = some last ∧ last.isProjected = false ∧
      ChartV1.historicalData (H ++ P) = H ∧
      ChartV1.projectedData (H ++ P) = last :: P := by
  obtain ⟨H0, a, hHa⟩ := H.eq_nil_or_concat.resolve_left hH
  rw [List.concat_eq_append] at hHa
  subst hHa
  obtain ⟨x, P1, rfl⟩ : ∃ x P1, P = x :: P1 := by
    cases P with
    | nil => exact absurd rfl hP
    | cons x P1 => exact ⟨x, P1, rfl⟩
  have hfi : ChartV1.lastHistoricalIndex ((H0 ++ [a]) ++ x :: P1)
      = ((H0 ++ [a]).length : Int) :=
    jsFindIndex_append _ _ _ _ (fun y hy => h1 y hy) (h2 x (List.mem_cons_self x P1))
  refine ⟨a, List.getLast?_concat H0, h1 a (by simp), ?_, ?_⟩
  · rw [ChartV1.historicalData, hfi, jsSlice_zero_natCast _ _ (by simp), List.take_left]
  · rw [ChartV1.projectedData, hfi]
    have hl : ((H0 ++ [a]).length : Int) - 1 = ((H0.length : Nat) : Int) := by
      simp
    rw [hl, jsSliceFrom_natCast]
    rw [List.append_assoc, List.drop_left]
    rfl

/-- C10: in the first `ConfidenceChart` revision, when no input point
is tagged projected (`findIndex` returns `-1`), the historical series
is `data.slice(0, -1)` — every point except the most recent — and the
90-threshold check ranges over that truncated series, so a trajectory
whose only score at or above 90 is its final point is classified as
not having reached the threshold. -/
theorem c10_threshold_check_drops_last_point
    (data : List CPoint) (h1 : ∀ p ∈ data, p.isProjected = false) :
    ChartV1.historicalData data = data.take (data.length - 1) ∧
    ((∀ p ∈ data.take (data.length - 1), p.confidence < 90) →
      ChartV1.hasReachedConfidence data = false) := by
  have hfi : ChartV1.lastHistoricalIndex data = -1 :=
    jsFindIndex_eq_neg_one _ _ h1
  have hz : jsIdx data.length 0 = 0 := by simp [jsIdx]
  have hm : jsIdx data.length (-1) = data.length - 1 := by
    simp only [jsIdx]
    rw [if_pos (by omega)]
    omega
  have htake : ChartV1.historicalData data = data.take (data.length - 1) := by
    rw [ChartV1.historicalData, hfi, jsSlice, hz, hm, List.drop_zero]
  refine ⟨htake, fun hlt => ?_⟩
  rw [ChartV1.hasReachedConfidence, htake]
  rw [List.any_eq_false]
  intro p hp
  simpa using not_le.mpr (hlt p hp)

theorem chartRowsAux_projected_none (li : Int) (i : Nat) (l : List CPoint) :
    ∀ r ∈ ChartP3.chartRowsAux li false i l, r.projected = none := by
  induction l generalizing i with
  | nil => intro r hr; simp [ChartP3.chartRowsAux] at hr
  | cons p ps ih =>
    intro r hr
    rw [ChartP3.chartRowsAux] at hr
    rcases List.mem_cons.mp hr with h | h
    · subst h; simp
    · exact ih (i + 1) r h

theorem chartRowsAux_historical_neg_one (sp : Bool) (i : Nat) (l : List CPoint) :
    (ChartP3.chartRowsAux (-1) sp i l).map (fun r => (r.date, r.historical))
      = l.map (fun p => (p.date, some p.confidence)) := by
  induction l generalizing i with
  | nil => rfl
  | cons p ps ih =>
    rw [ChartP3.chartRowsAux]
    simp only [List.map_cons, ih (i + 1)]
    simp

/-- C5: once the historical segment of a trajectory has reached the
90 threshold, the chart emits no projected point at all, and when the
trajectory is all-historical it passes the historical sequence through
unchanged. -/
theorem c5_reached_threshold_suppresses_projection
    (data : List CPoint) (h : ChartP3.hasReachedConfidence data = true) :
    (∀ r ∈ ChartP3.chartData data, r.projected = none) ∧
    (ChartP3.lastHistoricalIndex data = -1 →
      (ChartP3.chartData data).map (fun r => (r.date, r.historical))
        = data.map (fun p => (p.date, some p.confidence))) := by
  have hsp : ChartP3.showProjectedLine data = false := by
    simp [ChartP3.showProjectedLine, h]
  constructor
  · rw [ChartP3.chartData, hsp]
    exact chartRowsAux_projected_none _ 0 data
  · intro hneg
    rw [ChartP3.chartData, hsp, hneg]
    exact chartRowsAux_historical_neg_one false 0 data

/-- C5 witness data: the spec's already-significant example, scores
88, 91, 95, all historical. -/
def c5data : List CPoint :=
  [⟨"d1", 88, false⟩, ⟨"d2", 91, false⟩, ⟨"d3", 95, false⟩]

/-- C5 witness: on scores [88, 91, 95] the threshold is reached, no
projected value is emitted, and the historical sequence comes through
unchanged. -/
theorem c5_reached_threshold_witness :
    ChartP3.hasReachedConfidence c5data = true ∧
    (∀ r ∈ ChartP3.chartData c5data, r.projected = none) ∧
    (ChartP3.lastHistoricalIndex c5data = -1 →
      (ChartP3.chartData c5data).map (fun r => (r.date, r.historical))
        = c5data.map (fun p => (p.date, some p.confidence))) := by
  have h : ChartP3.hasReachedConfidence c5data = true := by decide
  exact ⟨h, c5_reached_threshold_suppresses_projection c5data h⟩

/-- C6 witness data: two historical points. -/
def c6H : List CPoint := [⟨"d1", 50, false⟩, ⟨"d2", 70, false⟩]

/-- C6 witness data: one projected point. -/
def c6P : List CPoint := [⟨"d3", 85, true⟩]

/-- C6 witness: on a concrete two-point historical block and one
projected point, the projected series starts with the duplicated last
historical point. -/
theorem c6_projected_series_witness :
    ∃ last, c6H.getLast? = some last ∧ last.isProjected = false ∧
      ChartV1.historicalData (c6H ++ c6P) = c6H ∧
      ChartV1.projectedData (c6H ++ c6P) = last :: c6P :=
  c6_projected_series_starts_at_last_historical c6H c6P (by decide) (by decide)
    (by decide) (by decide)

/-- C10 witness data: all-historical, only the final point at or above
90. -/
def c10data : List CPoint := [⟨"d1", 50, false⟩, ⟨"d2", 95, false⟩]

/-- C10 witness: with scores [50, 95] and no projected point, the
threshold check ranges over [50] only and reports not reached, even
though the final score 95 meets the threshold. -/
theorem c10_threshold_check_witness :
    (∀ p ∈ c10data, p.isProjected = false) ∧
    (∀ p ∈ c10data.take (c10data.length - 1), p.confidence < 90) ∧
    ChartV1.historicalData c10data = c10data.take (c10data.length - 1) ∧
    ChartV1.hasReachedConfidence c10data = false := by
  have h1 : ∀ p ∈ c10data, p.isProjected = false := by decide
  have h2 : ∀ p ∈ c10data.take (c10data.length - 1), p.confidence < 90 := by decide
  obtain ⟨ha, hb⟩ := c10_threshold_check_drops_last_point c10data h1
  exact ⟨h1, h2, ha, hb h2⟩

/-- C7: the funnel aggregate of the worked example — 100 assigned
users, 80 reaching the goal step (index 1), 40 reaching the intent
step (index 4) — reports trials = 100 at every step (the step-0 entry
count) and successes(goal) = 80, successes(intent) = 40; and on the
code side, the trials figure `processData` uses for a step is always
the `Users` measure of the arm, independent of the step and of the
preceding step's count. -/
theorem c7_trials_use_assigned_users :
    trialsOf exampleUsers = 100 ∧
    successesOf exampleUsers 1 = 80 ∧
    successesOf exampleUsers 4 = 40 ∧
    funnelAggregate exampleUsers 5
      = (List.range 5).map (fun k => (100, successesOf exampleUsers k)) ∧
    (∀ cm vm step, (compareStep cm vm step).controlTrials = jsOr (cm "Users") 1 ∧
      (compareStep cm vm step).controlSuccesses = jsOr (cm step) 0) :=
  ⟨by decide, by decide, by decide, by decide, fun cm vm step => ⟨rfl, rfl⟩⟩
